import Mathlib

/-!
Verification of the pricehawk store-discovery and price-extraction engine.

Shallow embedding of the Python source:
  app/services/scraper_service.py   (parse_price, normalize_url, validate_url,
                                     extract_price_from_html, scrape_url)
  app/services/store_discovery.py   (discover_products)
  app/services/store_detector.py    (detect_platform)
  app/services/stores/base.py       (DiscoveredProduct, filter_by_keyword)
  app/services/stores/shopify.py    (ShopifyHandler)

Machine strings are Lean Strings, Python Decimal values are ℚ, fallible code
returns Option/Except, and network I/O is an explicit environment parameter.
-/

set_option autoImplicit false

namespace PriceHawk

/-! ## Python string primitives -/

/-- Characters treated as whitespace by Python's `str.strip`, `str.split` and
the regex class `\s` (ASCII subset; the inputs in this development are ASCII
plus currency symbols). -/
def pyIsSpace (c : Char) : Bool :=
  c == ' ' || c == '\t' || c == '\n' || c == '\r' || c == '\x0b' || c == '\x0c'

/-- Python `str.strip()`: drop leading and trailing whitespace. -/
def pyStrip (s : String) : String :=
  String.mk (((s.data.dropWhile pyIsSpace).reverse.dropWhile pyIsSpace).reverse)

/-- Python `str.lower()` (character-wise). -/
def pyLower (s : String) : String := String.mk (s.data.map Char.toLower)

/-- Python `str.upper()` (character-wise). -/
def pyUpper (s : String) : String := String.mk (s.data.map Char.toUpper)

/-- Does `pat` occur as a leading segment of `cs`? -/
def leadsWith : List Char → List Char → Bool
  | [], _ => true
  | _ :: _, [] => false
  | p :: ps, c :: cs => p == c && leadsWith ps cs

/-- Substring occurrence (Python's `pat in s` for strings). -/
def hasSubList (pat : List Char) : List Char → Bool
  | [] => leadsWith pat []
  | c :: cs => leadsWith pat (c :: cs) || hasSubList pat cs

/-- Python `pat in s`. -/
def pyIn (pat s : String) : Bool := hasSubList pat.data s.data

/-- Python `s.startswith(pat)`. -/
def strStarts (s pat : String) : Bool := leadsWith pat.data s.data

/-- Python `s.endswith(pat)`. -/
def strEnds (s pat : String) : Bool := leadsWith pat.data.reverse s.data.reverse

/-- Python slicing `s[:n]`. -/
def pyTruncate (s : String) (n : Nat) : String := String.mk (s.data.take n)

/-- Python `str.split()` (split on whitespace runs, dropping empty parts);
accumulator holds the current word reversed. -/
def pySplitWsAux : List Char → List Char → List String
  | [], acc => if acc.isEmpty then [] else [String.mk acc.reverse]
  | c :: cs, acc =>
    if pyIsSpace c then
      if acc.isEmpty then pySplitWsAux cs [] else String.mk acc.reverse :: pySplitWsAux cs []
    else pySplitWsAux cs (c :: acc)

/-- Python `str.split()` with no argument. -/
def pySplitWs (s : String) : List String := pySplitWsAux s.data []

/-- Python `s.split(sep)` for a single-character separator, keeping empty parts. -/
def splitChar (sep : Char) : List Char → List (List Char)
  | [] => [[]]
  | c :: cs =>
    match splitChar sep cs with
    | [] => [[]]
    | g :: gs => if c == sep then [] :: g :: gs else (c :: g) :: gs

/-- Python `s.rfind(c)`: index of the last occurrence, or -1. -/
def pyRfind (cs : List Char) (c : Char) : Int :=
  match cs with
  | [] => -1
  | a :: rest =>
    let r := pyRfind rest c
    if r ≥ 0 then r + 1 else if a == c then 0 else -1

/-- Python `s.replace(a, b)` for single characters. -/
def replChar (cs : List Char) (a b : Char) : List Char :=
  cs.map (fun c => if c == a then b else c)

/-- Python `s.replace(a, "")` for a single character. -/
def removeChar (cs : List Char) (a : Char) : List Char := cs.filter (fun c => c != a)

/-- Python `" ".join(parts)`. -/
def joinSpace : List String → String
  | [] => ""
  | [s] => s
  | s :: rest => s ++ " " ++ joinSpace rest

/-! ## Python `decimal.Decimal`

A finite `Decimal` value is a triple (sign, coefficient, exponent), mirroring
Python's internal representation: the value is `±units · 10^(-scale)`.
`pyDecimal` models the `Decimal(string)` constructor on the sign / digits /
decimal-point strings that reach it in this code base (the price cleaner has
already removed letters and whitespace, so exponents, `NaN` and `Infinity`
never occur); `none` models the constructor raising `InvalidOperation`. -/

structure PyDec where
  neg : Bool
  units : Nat
  scale : Nat
deriving DecidableEq

/-- The rational value of a decimal. -/
def PyDec.toRat (d : PyDec) : ℚ :=
  (if d.neg then -1 else 1) * (d.units : ℚ) / (10 ^ d.scale : ℚ)

/-- Python truthiness of a `Decimal` (`if price:`): nonzero. -/
def PyDec.nonzeroB (d : PyDec) : Bool := d.units != 0

/-- The `Decimal` comparison `price > 0`. -/
def PyDec.gtZeroB (d : PyDec) : Bool := !d.neg && d.units != 0

def digitsVal (cs : List Char) : Nat :=
  cs.foldl (fun n c => 10 * n + (c.toNat - '0'.toNat)) 0

def decSign : List Char → Bool × List Char
  | '-' :: cs => (true, cs)
  | '+' :: cs => (false, cs)
  | cs => (false, cs)

/-- `Decimal(s)` as an `Option PyDec`. -/
def pyDecimal (s : String) : Option PyDec :=
  let p := decSign s.data
  let intPart := p.2.takeWhile Char.isDigit
  let rest := p.2.dropWhile Char.isDigit
  match rest with
  | [] => if intPart.isEmpty then none else some ⟨p.1, digitsVal intPart, 0⟩
  | '.' :: frac =>
    if frac.all Char.isDigit && !(intPart.isEmpty && frac.isEmpty) then
      some ⟨p.1, digitsVal (intPart ++ frac), frac.length⟩
    else none
  | _ => none

/-! ## `parse_price` (scraper_service.py lines 157-194) -/

/-- `re.sub(r"[£€$₦,\s]", "", text)`: the characters stripped by the first
cleaning pass (currency symbols, comma, whitespace). -/
def isStrippedSymbol (c : Char) : Bool :=
  c == '£' || c == '€' || c == '$' || c == '₦' || c == ',' || pyIsSpace c

/-- `re.sub(r"[A-Za-z]", "", ...)`: ASCII letters removed by the second pass. -/
def isAsciiLetter (c : Char) : Bool :=
  (Nat.ble 'A'.toNat c.toNat && Nat.ble c.toNat 'Z'.toNat) ||
  (Nat.ble 'a'.toNat c.toNat && Nat.ble c.toNat 'z'.toNat)

/-- The two cleaning substitutions of `parse_price`. -/
def clean_price_text (t : String) : String :=
  String.mk ((t.data.filter (fun c => !isStrippedSymbol c)).filter
    (fun c => !isAsciiLetter c))

/-- Separator disambiguation of `parse_price` (lines 179-189): European-format
handling when both `,` and `.` are present, and the two-decimal check when only
`,` is present. -/
def disambiguateSeparators (cleaned : List Char) : List Char :=
  if cleaned.contains ',' && cleaned.contains '.' then
    if pyRfind cleaned ',' > pyRfind cleaned '.' then
      replChar (removeChar cleaned '.') ',' '.'
    else cleaned
  else if cleaned.contains ',' then
    if ((splitChar ',' cleaned).getLastD []).length == 2 then
      replChar cleaned ',' '.'
    else removeChar cleaned ','
  else cleaned

/-- `parse_price(text)` from scraper_service.py: currency detection, cleaning,
separator disambiguation, `Decimal` conversion (`none` on failure). -/
def parse_price (text : String) : Option PyDec × String :=
  if text.isEmpty then (none, "USD")
  else
    let t := pyStrip text
    let currency :=
      if pyIn "₦" t || pyIn "NGN" (pyUpper t) then "NGN"
      else if pyIn "£" t then "GBP"
      else if pyIn "€" t then "EUR"
      else if pyIn "CAD" t || pyIn "C$" t then "CAD"
      else "USD"
    let cleaned := disambiguateSeparators (clean_price_text t).data
    (pyDecimal (String.mk cleaned), currency)

/-! ## `normalize_url` (scraper_service.py lines 74-96) -/

/-- `normalize_url(url)`: trim, reject empty and `http://`, prepend `https://`
to bare domains.  The Python function returns `(normalized, error)` with
exactly one component set; this is embedded as `Except error normalized`. -/
def normalize_url (url : String) : Except String String :=
  let url := pyStrip url
  if url.isEmpty then
    Except.error "URL cannot be empty"
  else if strStarts (pyLower url) "http://" then
    Except.error "HTTP is not secure. Please use the HTTPS version of this URL (replace http:// with https://)"
  else if !strStarts url "https://" then
    if pyIn "." url && !pyIn " " url then Except.ok ("https://" ++ url)
    else Except.error "Invalid URL format. Please enter a valid product URL"
  else Except.ok url

/-! ## URL parsing (the fragment of `urllib.parse.urlparse` that
`validate_url` consumes: `parsed.scheme` and `parsed.hostname`) -/

/-- Characters allowed after the first letter of a URL scheme. -/
def schemeChar (c : Char) : Bool :=
  c.isAlpha || c.isDigit || c == '+' || c == '-' || c == '.'

/-- Split the input at the first occurrence of `c`. -/
def splitAtChar (c : Char) : List Char → Option (List Char × List Char)
  | [] => none
  | a :: rest =>
    if a == c then some ([], rest)
    else (splitAtChar c rest).map (fun p => (a :: p.1, p.2))

/-- `urlparse`: the scheme (lowercased) and the remainder.  A candidate before
the first `:` counts as a scheme only when it is a letter followed by
letters/digits/`+`/`-`/`.`. -/
def urlSplitScheme (url : String) : String × String :=
  match splitAtChar ':' url.data with
  | none => ("", url)
  | some (bef, aft) =>
    if !bef.isEmpty && (bef.headD ' ').isAlpha && bef.all schemeChar then
      (String.mk (bef.map Char.toLower), String.mk aft)
    else ("", url)

def urlScheme (url : String) : String := (urlSplitScheme url).1

def netlocEnd (c : Char) : Bool := c == '/' || c == '?' || c == '#'

/-- `urlparse`: the network location, present only after `//`. -/
def urlNetloc (url : String) : String :=
  match (urlSplitScheme url).2.data with
  | '/' :: '/' :: cs => String.mk (cs.takeWhile (fun c => !netlocEnd c))
  | _ => ""

/-- Drop the userinfo part (everything up to the last `@`). -/
def afterLastAt (cs : List Char) : List Char :=
  (cs.reverse.takeWhile (fun c => c != '@')).reverse

/-- Hostname from the netloc: strip userinfo, brackets (IPv6) or port. -/
def hostFromNetloc (cs : List Char) : List Char :=
  match afterLastAt cs with
  | '[' :: rest => rest.takeWhile (fun c => c != ']')
  | other => other.takeWhile (fun c => c != ':')

/-- `parsed.hostname or ""`, lowercased as `urllib` does. -/
def urlHostname (url : String) : String :=
  String.mk ((hostFromNetloc (urlNetloc url).data).map Char.toLower)

/-! ## `validate_url` (scraper_service.py lines 99-139) -/

/-- `BLOCKED_DOMAIN_SUFFIXES` from scraper_service.py. -/
def BLOCKED_DOMAIN_SUFFIXES : List String :=
  [".local", ".localhost", ".internal", ".corp", ".lan", ".home", ".intranet"]

def charLeB (a b : Char) : Bool := Nat.ble a.toNat b.toNat

/-- The regex `^172\.(1[6-9]|2[0-9]|3[01])\.` (private class B). -/
def matches172Range (h : List Char) : Bool :=
  match h with
  | c1 :: c2 :: c3 :: c4 :: a :: b :: c7 :: _ =>
    c1 == '1' && c2 == '7' && c3 == '2' && c4 == '.' && c7 == '.' &&
    ((a == '1' && charLeB '6' b && charLeB b '9') ||
     (a == '2' && b.isDigit) ||
     (a == '3' && (b == '0' || b == '1')))
  | _ => false

/-- A lowercase hexadecimal digit, the regex class `[0-9a-f]`. -/
def isHexLower (c : Char) : Bool :=
  c.isDigit || (charLeB 'a' c && charLeB c 'f')

/-- The regexes `^fc[0-9a-f]{2}:` and `^fd[0-9a-f]{2}:` (IPv6 private). -/
def matchesIPv6ULA (h : List Char) : Bool :=
  match h with
  | c1 :: x :: a :: b :: c5 :: _ =>
    c1 == 'f' && (x == 'c' || x == 'd') && isHexLower a && isHexLower b &&
    c5 == ':'
  | _ => false

/-- The `private_patterns` regex list of `validate_url`, in source order:
loopback, private class A/B/C, "this" network, link-local, IPv6 loopback,
IPv6 private, IPv6 link-local. -/
def matchesPrivate (h : String) : Bool :=
  h == "localhost" ||
  strStarts h "127." ||
  strStarts h "10." ||
  matches172Range h.data ||
  strStarts h "192.168." ||
  strStarts h "0." ||
  strStarts h "169.254." ||
  h == "::1" ||
  matchesIPv6ULA h.data ||
  strStarts h "fe80:"

/-- The cloud metadata host set of `validate_url`. -/
def metadataHosts : List String := ["169.254.169.254", "metadata.google.internal"]

/-- `validate_url(url)` from scraper_service.py: HTTPS-only plus SSRF
protection.  Returns `(ok, error)`. -/
def validate_url (url : String) : Bool × Option String :=
  if urlScheme url != "https" then
    (false, some "Only HTTPS URLs are allowed")
  else if matchesPrivate (urlHostname url) then
    (false, some "Private or internal URLs are not allowed")
  else if metadataHosts.contains (urlHostname url) then
    (false, some "Private or internal URLs are not allowed")
  else if BLOCKED_DOMAIN_SUFFIXES.any (fun suf => strEnds (urlHostname url) suf) then
    (false, some "Private or internal URLs are not allowed")
  else
    (true, none)

/-- The host conditions enumerated by claim C4, stated in the claim's own
terms over the parsed hostname: loopback/private/link-local IPv4 ranges, IPv6
loopback/unique-local/link-local textual forms, cloud-metadata hosts, and
internal-only domain suffixes. -/
def claimPrivateHost (h : String) : Prop :=
  h = "localhost" ∨
  strStarts h "127." = true ∨
  strStarts h "10." = true ∨
  (∃ n : Nat, 16 ≤ n ∧ n ≤ 31 ∧ strStarts h ("172." ++ toString n ++ ".") = true) ∨
  strStarts h "192.168." = true ∨
  strStarts h "169.254." = true ∨
  h = "::1" ∨
  (∃ x a b : Char, (x = 'c' ∨ x = 'd') ∧ isHexLower a = true ∧ isHexLower b = true ∧
    strStarts h (String.mk ['f', x, a, b, ':']) = true) ∨
  strStarts h "fe80:" = true ∨
  h = "169.254.169.254" ∨ h = "metadata.google.internal" ∨
  strEnds h ".local" = true ∨ strEnds h ".internal" = true ∨
  strEnds h ".corp" = true ∨ strEnds h ".lan" = true ∨
  strEnds h ".home" = true ∨ strEnds h ".intranet" = true

/-! ## `extract_price_from_html` and `scrape_url` (scraper_service.py 197-377)

The HTML layer (BeautifulSoup selector matching) is abstracted as the ordered
list of element texts produced by the selector cascade; `extract_from_texts`
is the per-element loop body of `extract_price_from_html`, which returns the
first strictly positive parsed price (`if price and price > 0`).  Network
fetches are environment data: a fetch either raises, returns no usable body
(`None` or falsy), or yields a page abstracted as its candidate texts. -/

/-- `ScrapeResult` dataclass from scraper_service.py. -/
structure ScrapeResult where
  price : Option PyDec
  currency : String
  status : String
  error_message : Option String := none
deriving DecidableEq

/-- The element loop of `extract_price_from_html`: accept the first parsed
price with `price and price > 0`, else fall through; exhaustion returns
`(None, "USD")`. -/
def extract_from_texts : List String → Option PyDec × String
  | [] => (none, "USD")
  | t :: rest =>
    match parse_price t with
    | (some p, c) =>
      if p.nonzeroB && p.gtZeroB then (some p, c) else extract_from_texts rest
    | (none, _) => extract_from_texts rest

/-- Outcome of one fetch attempt (httpx or Playwright). -/
inductive FetchOutcome where
  | exn (msg : String)
  | noData
  | page (texts : List String)

/-- Environment for one `scrape_url` call: what each fetch tier would yield. -/
structure ScrapeEnv where
  httpx : FetchOutcome
  playwright : FetchOutcome

/-- Observable network-side effects of `scrape_url`, in order. -/
inductive NetEffect where
  | delay
  | httpxFetch
  | playwrightFetch
deriving DecidableEq

/-- The terminal failure result of `scrape_url` (lines 374-377): the last
captured error, or the generic message. -/
def scrape_failed_result (last_error : Option String) : ScrapeResult :=
  { price := none, currency := "USD", status := "failed",
    error_message := some (last_error.getD "Could not extract price. This may not be a supported e-commerce store, or the product page structure is not recognized.") }

/-- One fetch tier of `scrape_url` (the two identical try blocks): on
exception, record the truncated message; on a page, extract and accept a
truthy price (`if price:`).  Returns either the success result or the
updated `last_error`. -/
def scrape_tier (outcome : FetchOutcome) (last_error : Option String) :
    Option ScrapeResult × Option String :=
  match outcome with
  | .exn e => (none, some (pyTruncate e 200))
  | .noData => (none, last_error)
  | .page texts =>
    match extract_from_texts texts with
    | (some p, c) =>
      if p.nonzeroB then
        (some { price := some p, currency := c, status := "success" }, last_error)
      else (none, last_error)
    | (none, _) => (none, last_error)

/-- `scrape_url(url)`: normalize, validate, random delay, httpx tier, then
Playwright tier.  Alongside the `ScrapeResult`, the embedding returns the
ordered list of network-side effects the call performs. -/
def scrape_url (env : ScrapeEnv) (url : String) : ScrapeResult × List NetEffect :=
  match normalize_url url with
  | .error e =>
    ({ price := none, currency := "USD", status := "failed", error_message := some e }, [])
  | .ok nurl =>
    match validate_url nurl with
    | (false, err) =>
      ({ price := none, currency := "USD", status := "failed", error_message := err }, [])
    | (true, _) =>
      match scrape_tier env.httpx none with
      | (some res, _) => (res, [.delay, .httpxFetch])
      | (none, le1) =>
        match scrape_tier env.playwright le1 with
        | (some res, _) => (res, [.delay, .httpxFetch, .playwrightFetch])
        | (none, le2) =>
          (scrape_failed_result le2, [.delay, .httpxFetch, .playwrightFetch])

/-! ## `DiscoveredProduct` and `filter_by_keyword` (stores/base.py) -/

/-- `DiscoveredProduct` dataclass from stores/base.py, with the same field
defaults (`in_stock` defaults to `True`). -/
structure DiscoveredProduct where
  name : String
  price : Option PyDec
  currency : String
  image_url : Option String
  product_url : String
  platform : String
  variant_id : Option String := none
  sku : Option String := none
  in_stock : Bool := true
  product_type : Option String := none
  tags : List String := []
  description : Option String := none
deriving DecidableEq

/-- The searchable text built inside `filter_by_keyword`:
`" ".join([name.lower(), product_type.lower() or "", " ".join(tags).lower(),
description.lower() or ""])`.  A `None` (or empty) optional field contributes
the empty string. -/
def searchableText (p : DiscoveredProduct) : String :=
  joinSpace [pyLower p.name, pyLower (p.product_type.getD ""),
    pyLower (joinSpace p.tags), pyLower (p.description.getD "")]

/-- `BaseStoreHandler.filter_by_keyword` from stores/base.py: `None` or falsy
keyword returns the list unchanged; otherwise keep the products where any
lowered keyword word occurs in the searchable text. -/
def filter_by_keyword (products : List DiscoveredProduct) :
    Option String → List DiscoveredProduct
  | none => products
  | some kw =>
    if kw.isEmpty then products
    else
      let words := (pySplitWs kw).map pyLower
      if words.isEmpty then products
      else products.filter (fun p => words.any (fun w => pyIn w (searchableText p)))

/-- Claim-side matching predicate for C10: some whitespace-separated word of
the keyword occurs case-insensitively in the space-joined concatenation of
name, product_type, tags and description. -/
def specKeywordMatch (kw : String) (p : DiscoveredProduct) : Bool :=
  (pySplitWs kw).any (fun w =>
    pyIn (pyLower w)
      (pyLower (joinSpace [p.name, p.product_type.getD "",
        joinSpace p.tags, p.description.getD ""])))

/-! ## `discover_products` (store_discovery.py lines 17-66)

`detect_platform` and `handler.fetch_products` are awaited network
operations; the environment records what each would do (return a value or
raise with a message).  The `try/except` of `discover_products` catching
every exception is embedded by matching on those outcomes; totality of the
Lean function is the "never propagates an exception" guarantee. -/

/-- A detected store handler as `discover_products` consumes it. -/
structure StoreHandler where
  platform_name : String
deriving DecidableEq

/-- Environment of one `discover_products` call. -/
structure DiscoveryEnv where
  detect_platform : Except String StoreHandler
  fetch_products : Except String (List DiscoveredProduct)

/-- `DiscoveryResult` dataclass from store_discovery.py. -/
structure DiscoveryResult where
  platform : String
  store_url : String
  total_found : Nat
  products : List DiscoveredProduct
  error : Option String := none
deriving DecidableEq

/-- `discover_products(url, keyword, limit)`: detect, fetch, wrap any
exception into an error result with the message truncated via `str(e)[:200]`.
(The keyword/limit arguments only flow into `fetch_products`, which is
environment data here, so they do not appear.) -/
def discover_products (env : DiscoveryEnv) (url : String) : DiscoveryResult :=
  match env.detect_platform with
  | .error e => ⟨"unknown", url, 0, [], some (pyTruncate e 200)⟩
  | .ok handler =>
    match env.fetch_products with
    | .error e => ⟨"unknown", url, 0, [], some (pyTruncate e 200)⟩
    | .ok products => ⟨handler.platform_name, url, products.length, products, none⟩

/-! ## `detect_platform` (store_detector.py lines 19-42)

Each handler's `detect(url)` either returns a Bool or raises; the environment
is the list of these outcomes, in the fixed `HANDLER_CLASSES` priority order.
`detect_platform` returns the index of the chosen handler (`none` meaning the
fresh `GenericHandler()` fallback constructed after the loop) together with
the indices of the handlers it closed. -/

/-- `platform_name` of each `HANDLER_CLASSES` entry, in priority order:
Shopify, WooCommerce, Amazon, eBay, Generic. -/
def HANDLER_PLATFORMS : List String :=
  ["shopify", "woocommerce", "amazon", "ebay", "custom"]

/-- What one handler's `detect(url)` did. -/
inductive DetectOutcome where
  | matched
  | noMatch
  | raised
deriving DecidableEq

def isMatchedOutcome : DetectOutcome → Bool
  | .matched => true
  | _ => false

def isRaisedOutcome : DetectOutcome → Bool
  | .raised => true
  | _ => false

/-- The detection loop from index `i`: on a match return that handler with
the closures so far; on `False` continue (the handler is NOT closed); on an
exception close the handler and continue; after the loop fall back to a new
`GenericHandler()` (`none`). -/
def detect_platform_go (i : Nat) : List DetectOutcome → Option Nat × List Nat
  | [] => (none, [])
  | o :: rest =>
    match o with
    | .matched => (some i, [])
    | .noMatch => detect_platform_go (i + 1) rest
    | .raised =>
      let r := detect_platform_go (i + 1) rest
      (r.1, i :: r.2)

/-- `detect_platform(url)` over the handlers' detection outcomes. -/
def detect_platform_run (outs : List DetectOutcome) : Option Nat × List Nat :=
  detect_platform_go 0 outs

/-- Index of the first handler whose `detect` returned True. -/
def firstMatchedIdx : List DetectOutcome → Option Nat
  | [] => none
  | o :: rest =>
    if isMatchedOutcome o then some 0 else (firstMatchedIdx rest).map (· + 1)

/-- Indices of the handlers whose `detect` raised before the first match. -/
def raisedPre : List DetectOutcome → List Nat
  | [] => []
  | o :: rest =>
    if isMatchedOutcome o then []
    else
      let r := (raisedPre rest).map (· + 1)
      if isRaisedOutcome o then 0 :: r else r

/-! ## Shopify handler (stores/shopify.py)

`_parse_product` consumes one product dict of a `/products.json` response.
The dict fields it reads are modelled by `ShopifyRaw`; a missing `variants`
key (Python `data.get("variants", [])`) is `none`, distinct from a present
empty list.  The `tags` field may arrive as a comma-separated string or as a
list (`isinstance(tags, str)` branch). -/

/-- One entry of a product's `variants` array; `available` is `none` when the
key is absent (`first_variant.get("available", False)`). -/
structure ShopifyVariant where
  price : Option String := none
  id : String := ""
  available : Option Bool := none
  sku : Option String := none
deriving DecidableEq

/-- The `tags` JSON value: a comma-separated string or a list. -/
inductive ShopifyTags where
  | str (s : String)
  | list (l : List String)
deriving DecidableEq

/-- One product dict from `/products.json`. -/
structure ShopifyRaw where
  title : String := ""
  handle : String := ""
  images : List String := []
  variants : Option (List ShopifyVariant) := none
  product_type : String := ""
  tags : ShopifyTags := ShopifyTags.list []
  body_html : String := ""
deriving DecidableEq

/-- `[t.strip() for t in tags.split(",") if t.strip()]` for a string `tags`
value; a list value is used as-is. -/
def normalizeTags : ShopifyTags → List String
  | .str s =>
    ((splitChar ',' s.data).map (fun cs => pyStrip (String.mk cs))).filter
      (fun t => !t.isEmpty)
  | .list l => l

/-- `ShopifyHandler._parse_product(data, base_url)` (shopify.py 305-356):
urljoin of the handle, first image, price / id / availability from the first
variant, `None` on any exception.  When `variants` is a present empty list,
reading `data.get("variants", [{}])[0]` for the sku raises `IndexError`,
caught by the enclosing `except`, so the product is dropped; when the
`variants` key is missing, the `[{}]` default makes the sku `None` and
`in_stock` keeps its `False` initialisation. -/
def shopify_parse_product (data : ShopifyRaw) (base_url : String) :
    Option DiscoveredProduct :=
  let product_url := base_url ++ "/products/" ++ data.handle
  match data.variants with
  | none =>
    some { name := data.title, price := none, currency := "USD",
           image_url := data.images.head?, product_url := product_url,
           platform := "shopify", variant_id := none, sku := none,
           in_stock := false, product_type := some data.product_type,
           tags := normalizeTags data.tags, description := some data.body_html }
  | some [] => none
  | some (v :: _) =>
    let priceParsed : Option (Option PyDec) :=
      match v.price with
      | none => some none
      | some s =>
        if s.isEmpty then some none
        else
          match pyDecimal s with
          | none => none
          | some q => some (some q)
    match priceParsed with
    | none => none
    | some price =>
      some { name := data.title, price := price, currency := "USD",
             image_url := data.images.head?, product_url := product_url,
             platform := "shopify", variant_id := some v.id, sku := v.sku,
             in_stock := v.available.getD false,
             product_type := some data.product_type,
             tags := normalizeTags data.tags,
             description := some data.body_html }

/-- `settings.max_products_fetch` default (core/config.py). -/
def max_products_fetch_default : Nat := 500

/-- One `/products.json` page response: non-200/exception, or a product
list. -/
inductive PageResp where
  | err
  | ok (recs : List ShopifyRaw)

/-- The pagination loop of `_fetch_via_products_json` (shopify.py 82-104):
`while len(products) < max_fetch`, request the next page, break on error or
an empty page, parse each product (dropping `None`s) and continue.  `pages`
lists the server's successive responses; past its end the server returns an
empty page (catalog exhausted), which breaks the loop. -/
def shopify_fetch_json_go (base_url : String) (max_fetch : Nat) :
    List PageResp → List DiscoveredProduct → List DiscoveredProduct
  | [], acc => acc
  | page :: rest, acc =>
    if max_fetch ≤ acc.length then acc
    else
      match page with
      | .err => acc
      | .ok [] => acc
      | .ok recs =>
        shopify_fetch_json_go base_url max_fetch rest
          (acc ++ recs.filterMap (fun r => shopify_parse_product r base_url))

/-- `ShopifyHandler._fetch_via_products_json(base_url, max_fetch)`. -/
def shopify_fetch_via_products_json (base_url : String) (max_fetch : Nat)
    (pages : List PageResp) : List DiscoveredProduct :=
  shopify_fetch_json_go base_url max_fetch pages []

/-- Environment of one Shopify `fetch_products` call: the `/products.json`
page responses and what the Storefront-API fallback would return. -/
structure ShopifyEnv where
  pages : List PageResp
  storefront : List DiscoveredProduct

/-- `ShopifyHandler.fetch_products(url, keyword, limit)` (shopify.py 37-70):
fetch everything via `/products.json` (Storefront fallback if that yields
nothing), filter by keyword AFTER fetching, then truncate to `limit`. -/
def shopify_fetch_products (env : ShopifyEnv) (base_url : String)
    (keyword : Option String) (limit : Nat) (max_fetch : Nat) :
    List DiscoveredProduct :=
  (filter_by_keyword
    (if (shopify_fetch_via_products_json base_url max_fetch env.pages).isEmpty
     then env.storefront
     else shopify_fetch_via_products_json base_url max_fetch env.pages)
    keyword).take limit

/-! ## C6 scenario: a 300-item paginated catalog

`/products.json` serves pages of size 250: page 1 holds products 1-250,
page 2 holds products 251-300, page 3 is empty.  Product n is named `p<n>`,
priced "1.00", with one available variant. -/

def c6_base : String := "https://shop.example"

def c6_record (n : Nat) : ShopifyRaw :=
  { title := "p" ++ toString n, handle := "p" ++ toString n,
    variants := some [{ price := some "1.00", id := toString n,
                        available := some true }] }

/-- What `_parse_product` makes of `c6_record n`. -/
def c6_product (n : Nat) : DiscoveredProduct :=
  { name := "p" ++ toString n, price := some ⟨false, 100, 2⟩,
    currency := "USD", image_url := none,
    product_url := c6_base ++ "/products/" ++ ("p" ++ toString n),
    platform := "shopify", variant_id := some (toString n), sku := none,
    in_stock := true, product_type := some "", tags := [],
    description := some "" }

def c6_recs1 : List ShopifyRaw := (List.range 250).map (fun k => c6_record (k + 1))

def c6_recs2 : List ShopifyRaw := (List.range 50).map (fun k => c6_record (k + 251))

def c6_pages : List PageResp := [PageResp.ok c6_recs1, PageResp.ok c6_recs2]

/-- The full parsed 300-product catalog, in fetch order. -/
def c6_all : List DiscoveredProduct := (List.range 300).map (fun k => c6_product (k + 1))

/-! ## Theorems -/

theorem PyDec.toRat_false (u s : Nat) :
    (PyDec.mk false u s).toRat = (u : ℚ) / 10 ^ s := by
  simp [PyDec.toRat]

theorem PyDec.toRat_true (u s : Nat) :
    (PyDec.mk true u s).toRat = -((u : ℚ) / 10 ^ s) := by
  simp [PyDec.toRat]
  ring

/-- `gtZeroB` agrees with the rational value: `price > 0`. -/
theorem PyDec.gtZeroB_iff (d : PyDec) : d.gtZeroB = true ↔ 0 < d.toRat := by
  obtain ⟨n, u, s⟩ := d
  have hpow : (0 : ℚ) < (10 : ℚ) ^ s := by positivity
  cases n with
  | false =>
    rw [PyDec.toRat_false]
    simp only [gtZeroB, Bool.not_false, Bool.true_and, bne_iff_ne, ne_eq]
    constructor
    · intro hu
      have hu' : (0 : ℚ) < (u : ℚ) := by exact_mod_cast Nat.pos_of_ne_zero hu
      positivity
    · intro h hu
      rw [hu] at h
      simp at h
  | true =>
    rw [PyDec.toRat_true]
    constructor
    · intro h
      simp [gtZeroB] at h
    · intro h
      have hle : -((u : ℚ) / 10 ^ s) ≤ 0 :=
        neg_nonpos.mpr (div_nonneg (Nat.cast_nonneg u) (le_of_lt hpow))
      linarith

/-- C1: the claim says `parse_price "€1.234,56"` returns `Decimal "1234.56"`
with currency `"EUR"`, the rightmost separator acting as the decimal point.
In the code, the cleaning substitution `re.sub(r"[£€$₦,\s]", "", text)` deletes
every comma before the separator-disambiguation block runs, so that block is
dead code and the result is `Decimal "1.23456"` (coefficient 123456, exponent
-5), a value 1000 times smaller than claimed.  This theorem evaluates the code
at the failing input and shows the comma can never survive cleaning. -/
theorem c1_parse_price_european_format :
    parse_price "€1.234,56" = (some ⟨false, 123456, 5⟩, "EUR") ∧
    (PyDec.mk false 123456 5).toRat ≠ (123456 : ℚ) / 100 ∧
    ∀ t : String, ',' ∉ (clean_price_text t).data := by
  refine ⟨by decide, by norm_num [PyDec.toRat], ?_⟩
  intro t hm
  have h1 := List.mem_of_mem_filter hm
  have h2 := List.of_mem_filter h1
  simp [isStrippedSymbol] at h2

theorem leadsWith_iff (pat : List Char) : ∀ cs : List Char,
    leadsWith pat cs = true ↔ ∃ t, cs = pat ++ t := by
  induction pat with
  | nil =>
    intro cs
    simp [leadsWith]
  | cons p ps ih =>
    intro cs
    cases cs with
    | nil =>
      simp [leadsWith]
    | cons c cs' =>
      simp only [leadsWith, Bool.and_eq_true, beq_iff_eq, ih, List.cons_append,
        List.cons.injEq]
      constructor
      · rintro ⟨rfl, t, rfl⟩
        exact ⟨t, rfl, rfl⟩
      · rintro ⟨t, rfl, rfl⟩
        exact ⟨rfl, t, rfl⟩

theorem matches172Range_of_starts (h : String) (n : Nat) (h16 : 16 ≤ n)
    (h31 : n ≤ 31) (hs : strStarts h ("172." ++ toString n ++ ".") = true) :
    matches172Range h.data = true := by
  interval_cases n <;>
    (obtain ⟨t, ht⟩ := (leadsWith_iff _ _).mp hs; rw [ht]; rfl)

theorem matchesIPv6ULA_of_starts (h : String) (x a b : Char)
    (hx : x = 'c' ∨ x = 'd') (ha : isHexLower a = true) (hb : isHexLower b = true)
    (hs : strStarts h (String.mk ['f', x, a, b, ':']) = true) :
    matchesIPv6ULA h.data = true := by
  obtain ⟨t, ht⟩ := (leadsWith_iff _ _).mp hs
  rw [ht]
  rcases hx with rfl | rfl <;> simp [matchesIPv6ULA, ha, hb]

/-- Any of the three blocking checks produces the same rejection. -/
theorem validate_url_reject (url : String) (hs : urlScheme url = "https")
    (hblock : matchesPrivate (urlHostname url) = true ∨
      metadataHosts.contains (urlHostname url) = true ∨
      BLOCKED_DOMAIN_SUFFIXES.any (fun suf => strEnds (urlHostname url) suf) = true) :
    validate_url url = (false, some "Private or internal URLs are not allowed") := by
  unfold validate_url
  rw [hs, if_neg (by simp)]
  by_cases h1 : matchesPrivate (urlHostname url) = true
  · rw [if_pos h1]
  · rw [if_neg h1]
    by_cases h2 : metadataHosts.contains (urlHostname url) = true
    · rw [if_pos h2]
    · rw [if_neg h2]
      rcases hblock with h | h | h
      · exact absurd h h1
      · exact absurd h h2
      · rw [if_pos h]

/-- C4: `validate_url` rejects every URL whose scheme is not https, and every
https URL whose parsed hostname is localhost, lies in a loopback / private /
link-local IPv4 range, has an IPv6 loopback / unique-local / link-local
textual prefix, equals a cloud-metadata host, or ends with an internal-only
suffix; in particular `https://192.168.1.1/x` and `https://169.254.169.254/`
are rejected. -/
theorem c4_validate_url_ssrf :
    (∀ url : String, urlScheme url ≠ "https" →
      validate_url url = (false, some "Only HTTPS URLs are allowed")) ∧
    (∀ url : String, urlScheme url = "https" → claimPrivateHost (urlHostname url) →
      validate_url url = (false, some "Private or internal URLs are not allowed")) ∧
    validate_url "https://192.168.1.1/x" =
      (false, some "Private or internal URLs are not allowed") ∧
    validate_url "https://169.254.169.254/" =
      (false, some "Private or internal URLs are not allowed") := by
  refine ⟨?_, ?_, by decide, by decide⟩
  · intro url hne
    unfold validate_url
    rw [if_pos (by simpa using hne)]
  · intro url hs hpriv
    apply validate_url_reject url hs
    rcases hpriv with h | h | h | ⟨n, h16, h31, h⟩ | h | h | h |
        ⟨x, a, b, hx, ha, hb, h⟩ | h | h | h | h | h | h | h | h | h
    · exact Or.inl (by simp [matchesPrivate, h])
    · exact Or.inl (by simp [matchesPrivate, h])
    · exact Or.inl (by simp [matchesPrivate, h])
    · exact Or.inl (by simp [matchesPrivate,
        matches172Range_of_starts _ n h16 h31 h])
    · exact Or.inl (by simp [matchesPrivate, h])
    · exact Or.inl (by simp [matchesPrivate, h])
    · exact Or.inl (by simp [matchesPrivate, h])
    · exact Or.inl (by simp [matchesPrivate,
        matchesIPv6ULA_of_starts _ x a b hx ha hb h])
    · exact Or.inl (by simp [matchesPrivate, h])
    · exact Or.inr (Or.inl (by simp [metadataHosts, h]))
    · exact Or.inr (Or.inl (by simp [metadataHosts, h]))
    · exact Or.inr (Or.inr (by simp [BLOCKED_DOMAIN_SUFFIXES]; tauto))
    · exact Or.inr (Or.inr (by simp [BLOCKED_DOMAIN_SUFFIXES]; tauto))
    · exact Or.inr (Or.inr (by simp [BLOCKED_DOMAIN_SUFFIXES]; tauto))
    · exact Or.inr (Or.inr (by simp [BLOCKED_DOMAIN_SUFFIXES]; tauto))
    · exact Or.inr (Or.inr (by simp [BLOCKED_DOMAIN_SUFFIXES]; tauto))
    · exact Or.inr (Or.inr (by simp [BLOCKED_DOMAIN_SUFFIXES]; tauto))

/-- Witness for C4: both universals applied at concrete URLs. -/
theorem c4_validate_url_ssrf_witness :
    validate_url "ftp://example.com/" = (false, some "Only HTTPS URLs are allowed") ∧
    validate_url "https://10.0.0.5/" =
      (false, some "Private or internal URLs are not allowed") :=
  ⟨c4_validate_url_ssrf.1 "ftp://example.com/" (by decide),
   c4_validate_url_ssrf.2.1 "https://10.0.0.5/" (by decide)
     (Or.inr (Or.inr (Or.inl (by decide))))⟩

/-- A price accepted by the extraction loop is strictly positive. -/
theorem extract_from_texts_pos (texts : List String) (p : PyDec) (c : String)
    (h : extract_from_texts texts = (some p, c)) : 0 < p.toRat := by
  induction texts with
  | nil => simp [extract_from_texts] at h
  | cons t rest ih =>
    unfold extract_from_texts at h
    split at h
    · split at h
      · next hq =>
          rw [Prod.mk.injEq] at h
          obtain ⟨h1, rfl⟩ := h
          obtain rfl := Option.some.inj h1
          rw [Bool.and_eq_true] at hq
          exact (PyDec.gtZeroB_iff _).mp hq.2
      · exact ih h
    · exact ih h

/-- When `validate_url` rejects, it always carries a message. -/
theorem validate_url_false_some (url : String) (e : Option String)
    (h : validate_url url = (false, e)) : e ≠ none := by
  unfold validate_url at h
  split at h
  · cases h
    simp
  · split at h
    · cases h
      simp
    · split at h
      · cases h
        simp
      · split at h
        · cases h
          simp
        · cases h

/-- A success result produced by a tier carries a positive price. -/
theorem scrape_tier_success (outcome : FetchOutcome) (le : Option String)
    (res : ScrapeResult) (le' : Option String)
    (h : scrape_tier outcome le = (some res, le')) :
    res.status = "success" ∧ ∃ p, res.price = some p ∧ 0 < p.toRat := by
  unfold scrape_tier at h
  split at h
  · simp at h
  · simp at h
  · split at h
    · next p c hx =>
        split at h
        · rw [Prod.mk.injEq] at h
          obtain ⟨h1, rfl⟩ := h
          obtain rfl := (Option.some.inj h1).symm
          exact ⟨rfl, p, rfl, extract_from_texts_pos _ p c hx⟩
        · simp at h
    · simp at h

/-- C3: every `ScrapeResult` returned by `scrape_url` satisfies the invariant:
success implies a present, strictly positive price; failed implies an absent
price and a present error message. -/
theorem c3_scrape_result_invariant (env : ScrapeEnv) (url : String) :
    ((scrape_url env url).1.status = "success" →
      ∃ p, (scrape_url env url).1.price = some p ∧ 0 < p.toRat) ∧
    ((scrape_url env url).1.status = "failed" →
      (scrape_url env url).1.price = none ∧
      (scrape_url env url).1.error_message ≠ none) := by
  unfold scrape_url
  split
  · exact ⟨fun hs => by simp at hs, fun _ => by simp⟩
  · next nurl heqn =>
      split
      · next err heqv =>
          exact ⟨fun hs => by simp at hs,
            fun _ => ⟨rfl, validate_url_false_some nurl err heqv⟩⟩
      · split
        · next res le heq1 =>
            obtain ⟨hst, p, hp, hpos⟩ := scrape_tier_success _ _ _ _ heq1
            exact ⟨fun _ => ⟨p, hp, hpos⟩, fun hf => by rw [hst] at hf; simp at hf⟩
        · next le1 heq1 =>
            split
            · next res le heq2 =>
                obtain ⟨hst, p, hp, hpos⟩ := scrape_tier_success _ _ _ _ heq2
                exact ⟨fun _ => ⟨p, hp, hpos⟩, fun hf => by rw [hst] at hf; simp at hf⟩
            · next le2 heq2 =>
                exact ⟨fun hs => by simp [scrape_failed_result] at hs,
                  fun _ => ⟨rfl, by simp [scrape_failed_result]⟩⟩

/-- Witness for C3: a successful scrape (httpx page with a "$5" price text)
and a failed scrape (both tiers raise), each discharging one implication. -/
theorem c3_scrape_result_invariant_witness :
    (∃ p, (scrape_url ⟨FetchOutcome.page ["$5"], FetchOutcome.noData⟩
        "example.com").1.price = some p ∧ 0 < p.toRat) ∧
    ((scrape_url ⟨FetchOutcome.exn "boom", FetchOutcome.noData⟩
        "example.com").1.price = none ∧
      (scrape_url ⟨FetchOutcome.exn "boom", FetchOutcome.noData⟩
        "example.com").1.error_message ≠ none) :=
  ⟨(c3_scrape_result_invariant ⟨FetchOutcome.page ["$5"], FetchOutcome.noData⟩
      "example.com").1 (by decide),
   (c3_scrape_result_invariant ⟨FetchOutcome.exn "boom", FetchOutcome.noData⟩
      "example.com").2 (by decide)⟩

/-- C7: a URL that fails normalization, or whose normalized form fails
security validation, makes `scrape_url` return a failed result carrying that
error, with an empty effect list: no delay, no httpx fetch, no browser
render. -/
theorem c7_short_circuit_before_network (env : ScrapeEnv) (url : String) :
    (∀ e, normalize_url url = Except.error e →
      scrape_url env url =
        ({ price := none, currency := "USD", status := "failed",
           error_message := some e }, [])) ∧
    (∀ nurl err, normalize_url url = Except.ok nurl →
      validate_url nurl = (false, err) →
      scrape_url env url =
        ({ price := none, currency := "USD", status := "failed",
           error_message := err }, [])) := by
  constructor
  · intro e he
    unfold scrape_url
    split
    · next e' heq =>
        rw [he] at heq
        obtain rfl := Except.error.inj heq
        rfl
    · next nurl heq =>
        rw [he] at heq
        cases heq
  · intro nurl err h1 h2
    unfold scrape_url
    split
    · next e' heq =>
        rw [h1] at heq
        cases heq
    · next nurl' heq =>
        rw [h1] at heq
        obtain rfl := Except.ok.inj heq
        split
        · next err' heqv =>
            rw [h2] at heqv
            obtain rfl := ((Prod.mk.injEq _ _ _ _).mp heqv).2
            rfl
        · next snd heqv =>
            rw [h2] at heqv
            simp at heqv

/-- Witness for C7: the empty URL fails normalization; `192.168.1.1/x`
normalizes to an https URL that validation rejects. -/
theorem c7_short_circuit_before_network_witness :
    scrape_url ⟨FetchOutcome.noData, FetchOutcome.noData⟩ "" =
      ({ price := none, currency := "USD", status := "failed",
         error_message := some "URL cannot be empty" }, []) ∧
    scrape_url ⟨FetchOutcome.noData, FetchOutcome.noData⟩ "192.168.1.1/x" =
      ({ price := none, currency := "USD", status := "failed",
         error_message := some "Private or internal URLs are not allowed" }, []) :=
  ⟨(c7_short_circuit_before_network ⟨FetchOutcome.noData, FetchOutcome.noData⟩ "").1
      "URL cannot be empty" rfl,
   (c7_short_circuit_before_network ⟨FetchOutcome.noData, FetchOutcome.noData⟩
      "192.168.1.1/x").2 "https://192.168.1.1/x"
      (some "Private or internal URLs are not allowed") rfl (by decide)⟩

/-- C9: every failed `ScrapeResult` carries currency exactly "USD", no matter
what currency any failed extraction attempt detected. -/
theorem c9_failed_currency_usd (env : ScrapeEnv) (url : String) :
    (scrape_url env url).1.status = "failed" →
    (scrape_url env url).1.currency = "USD" := by
  unfold scrape_url
  split
  · intro _
    rfl
  · split
    · intro _
      rfl
    · split
      · next res le heq1 =>
          intro hf
          obtain ⟨hst, -⟩ := scrape_tier_success _ _ _ _ heq1
          rw [hst] at hf
          simp at hf
      · split
        · next res le heq2 =>
            intro hf
            obtain ⟨hst, -⟩ := scrape_tier_success _ _ _ _ heq2
            rw [hst] at hf
            simp at hf
        · intro _
          rfl

/-- Witness for C9: a scrape where both tiers raise is failed and reports
USD. -/
theorem c9_failed_currency_usd_witness :
    (scrape_url ⟨FetchOutcome.exn "a", FetchOutcome.exn "b"⟩
      "example.com").1.currency = "USD" :=
  c9_failed_currency_usd ⟨FetchOutcome.exn "a", FetchOutcome.exn "b"⟩
    "example.com" (by decide)

theorem pyLower_append (a b : String) :
    pyLower (a ++ b) = pyLower a ++ pyLower b := by
  cases a with
  | mk la =>
    cases b with
    | mk lb =>
      show String.mk (List.map Char.toLower (la ++ lb)) =
        String.mk (List.map Char.toLower la ++ List.map Char.toLower lb)
      rw [List.map_append]

theorem pyLower_joinSpace4 (a b c d : String) :
    pyLower (joinSpace [a, b, c, d]) =
      joinSpace [pyLower a, pyLower b, pyLower c, pyLower d] := by
  simp [joinSpace, pyLower_append]
  rfl

/-- The source's searchable text equals the claim-side one (lowercasing
distributes over the space-join). -/
theorem searchableText_eq_spec (p : DiscoveredProduct) :
    searchableText p =
      pyLower (joinSpace [p.name, p.product_type.getD "",
        joinSpace p.tags, p.description.getD ""]) := by
  rw [pyLower_joinSpace4, searchableText]

/-- C10: `filter_by_keyword` is the identity for a `None`, empty or
whitespace-only keyword, and otherwise filters (preserving order) to exactly
the products where at least one keyword word matches case-insensitively. -/
theorem c10_filter_by_keyword_spec (products : List DiscoveredProduct)
    (keyword : Option String) :
    ((keyword = none ∨ keyword = some "" ∨
        (∃ s, keyword = some s ∧ pySplitWs s = [])) →
      filter_by_keyword products keyword = products) ∧
    (∀ kw, keyword = some kw → kw.isEmpty = false → pySplitWs kw ≠ [] →
      filter_by_keyword products keyword =
        products.filter (fun p => specKeywordMatch kw p)) := by
  constructor
  · rintro (rfl | rfl | ⟨s, rfl, hs⟩)
    · rfl
    · rfl
    · simp only [filter_by_keyword]
      by_cases he : s.isEmpty
      · rw [if_pos he]
      · rw [if_neg he, if_pos (by simp [hs])]
  · rintro kw rfl hne hsplit
    simp only [filter_by_keyword]
    rw [if_neg (by simp [hne]),
      if_neg (by simp [List.isEmpty_iff, hsplit])]
    congr 1
    funext p
    rw [List.any_map]
    simp only [Function.comp, specKeywordMatch, searchableText_eq_spec]
    rfl

/-- Witness for C10: a whitespace-only keyword is the identity; the keyword
"red shirt" keeps exactly the matching product. -/
theorem c10_filter_by_keyword_spec_witness :
    filter_by_keyword
      [{ name := "Blue Mug", price := none, currency := "USD",
         image_url := none, product_url := "u1", platform := "custom" }]
      (some "  ") =
      [{ name := "Blue Mug", price := none, currency := "USD",
         image_url := none, product_url := "u1", platform := "custom" }] ∧
    filter_by_keyword
      [{ name := "Red Shirt XL", price := none, currency := "USD",
         image_url := none, product_url := "u1", platform := "custom" },
       { name := "Blue Mug", price := none, currency := "USD",
         image_url := none, product_url := "u2", platform := "custom" }]
      (some "red shirt") =
      [{ name := "Red Shirt XL", price := none, currency := "USD",
         image_url := none, product_url := "u1", platform := "custom" }] := by
  constructor
  · exact (c10_filter_by_keyword_spec _ (some "  ")).1
      (Or.inr (Or.inr ⟨"  ", rfl, by decide⟩))
  · rw [(c10_filter_by_keyword_spec _ (some "red shirt")).2 "red shirt" rfl
      (by decide) (by decide)]
    decide

/-- C2: `discover_products` is total over its inputs (it catches every
exception from detection or fetching): an exception yields
`platform="unknown"`, `total_found=0`, empty products and the message
truncated to at most 200 characters; `total_found` always equals the length
of the returned list. -/
theorem c2_discover_products_total (env : DiscoveryEnv) (url : String) :
    ((discover_products env url).total_found =
      (discover_products env url).products.length) ∧
    (∀ e, env.detect_platform = Except.error e →
      discover_products env url = ⟨"unknown", url, 0, [], some (pyTruncate e 200)⟩) ∧
    (∀ h e, env.detect_platform = Except.ok h → env.fetch_products = Except.error e →
      discover_products env url = ⟨"unknown", url, 0, [], some (pyTruncate e 200)⟩) ∧
    (∀ m, (discover_products env url).error = some m → m.length ≤ 200) := by
  refine ⟨?_, ?_, ?_, ?_⟩
  · unfold discover_products
    split
    · rfl
    · split
      · rfl
      · rfl
  · intro e he
    unfold discover_products
    rw [he]
  · intro h e hd hf
    unfold discover_products
    rw [hd]
    show (match env.fetch_products with
      | .error e => (⟨"unknown", url, 0, [], some (pyTruncate e 200)⟩ : DiscoveryResult)
      | .ok products => ⟨h.platform_name, url, products.length, products, none⟩) = _
    rw [hf]
  · intro m hm
    have hlen : ∀ e : String, (pyTruncate e 200).length ≤ 200 := by
      intro e
      show (e.data.take 200).length ≤ 200
      rw [List.length_take]
      exact min_le_left _ _
    unfold discover_products at hm
    split at hm
    · cases Option.some.inj hm
      exact hlen _
    · split at hm
      · cases Option.some.inj hm
        exact hlen _
      · cases hm

/-- Witness for C2: detection failure with an overlong message, and a
successful discovery. -/
theorem c2_discover_products_total_witness :
    discover_products
      ⟨Except.error (String.mk (List.replicate 300 'x')), Except.ok []⟩
      "https://a.example" =
      ⟨"unknown", "https://a.example", 0, [],
        some (String.mk (List.replicate 200 'x'))⟩ ∧
    (discover_products
      ⟨Except.ok ⟨"shopify"⟩,
       Except.ok [{ name := "p", price := none, currency := "USD",
                    image_url := none, product_url := "u",
                    platform := "shopify" }]⟩ "https://b.example").total_found =
      (discover_products
      ⟨Except.ok ⟨"shopify"⟩,
       Except.ok [{ name := "p", price := none, currency := "USD",
                    image_url := none, product_url := "u",
                    platform := "shopify" }]⟩ "https://b.example").products.length := by
  constructor
  · rw [(c2_discover_products_total
      ⟨Except.error (String.mk (List.replicate 300 'x')), Except.ok []⟩
      "https://a.example").2.1 (String.mk (List.replicate 300 'x')) rfl]
    have ht : pyTruncate (String.mk (List.replicate 300 'x')) 200 =
        String.mk (List.replicate 200 'x') := by
      show String.mk ((List.replicate 300 'x').take 200) = _
      rw [List.take_replicate]
      norm_num
    rw [ht]
  · exact (c2_discover_products_total _ "https://b.example").1

theorem optionMapAddAdd (o : Option Nat) (i : Nat) :
    (o.map (· + 1)).map (· + i) = o.map (· + (i + 1)) := by
  cases o with
  | none => rfl
  | some x =>
    simp
    omega

theorem listMapAddAdd (l : List Nat) (i : Nat) :
    (l.map (· + 1)).map (· + i) = l.map (· + (i + 1))
 := by
  rw [List.map_map]
  apply List.map_congr_left
  intro x _
  simp [Function.comp]
  omega

theorem optionMapAddZero (o : Option Nat) : o.map (· + 0) = o := by
  cases o <;> rfl

theorem listMapAddZero (l : List Nat) : l.map (· + 0) = l := by
  induction l with
  | nil => rfl
  | cons x xs ih => simp [ih]

theorem firstMatchedIdx_noMatch (rest : List DetectOutcome) :
    firstMatchedIdx (DetectOutcome.noMatch :: rest) =
      (firstMatchedIdx rest).map (· + 1) := by
  simp [firstMatchedIdx, isMatchedOutcome]

theorem firstMatchedIdx_raised (rest : List DetectOutcome) :
    firstMatchedIdx (DetectOutcome.raised :: rest) =
      (firstMatchedIdx rest).map (· + 1) := by
  simp [firstMatchedIdx, isMatchedOutcome]

theorem raisedPre_noMatch (rest : List DetectOutcome) :
    raisedPre (DetectOutcome.noMatch :: rest) = (raisedPre rest).map (· + 1) := by
  simp [raisedPre, isMatchedOutcome, isRaisedOutcome]

theorem raisedPre_raised (rest : List DetectOutcome) :
    raisedPre (DetectOutcome.raised :: rest) =
      0 :: (raisedPre rest).map (· + 1) := by
  simp [raisedPre, isMatchedOutcome, isRaisedOutcome]

theorem detect_platform_go_spec (outs : List DetectOutcome) : ∀ i : Nat,
    detect_platform_go i outs =
      ((firstMatchedIdx outs).map (· + i), (raisedPre outs).map (· + i)) := by
  induction outs with
  | nil =>
    intro i
    rfl
  | cons o rest ih =>
    intro i
    cases o with
    | matched =>
      simp [detect_platform_go, firstMatchedIdx, raisedPre, isMatchedOutcome]
    | noMatch =>
      show detect_platform_go (i + 1) rest = _
      rw [ih (i + 1), firstMatchedIdx_noMatch, raisedPre_noMatch,
        optionMapAddAdd, listMapAddAdd]
    | raised =>
      show ((detect_platform_go (i + 1) rest).1,
        i :: (detect_platform_go (i + 1) rest).2) = _
      rw [ih (i + 1), firstMatchedIdx_raised, raisedPre_raised,
        optionMapAddAdd, List.map_cons, listMapAddAdd, Nat.zero_add]

theorem mem_raisedPre (outs : List DetectOutcome) : ∀ j : Nat,
    j ∈ raisedPre outs → outs[j]? = some DetectOutcome.raised := by
  induction outs with
  | nil =>
    intro j hj
    simp [raisedPre] at hj
  | cons o rest ih =>
    intro j hj
    cases o with
    | matched => simp [raisedPre, isMatchedOutcome] at hj
    | noMatch =>
      rw [raisedPre_noMatch] at hj
      obtain ⟨k, hk, rfl⟩ := List.mem_map.mp hj
      simpa using ih k hk
    | raised =>
      rw [raisedPre_raised] at hj
      rcases List.mem_cons.mp hj with rfl | hj'
      · simp
      · obtain ⟨k, hk, rfl⟩ := List.mem_map.mp hj'
        simpa using ih k hk

/-- C5 counterexample: when the first handler's `detect` returns False and
the second matches, `detect_platform` returns handler 1 and closes nothing:
handler 0 was tried, did not match, and its HTTP client is NOT closed,
contradicting the claim that every tried non-matching handler is closed. -/
theorem c5_detect_platform_counterexample :
    detect_platform_run [DetectOutcome.noMatch, DetectOutcome.matched,
      DetectOutcome.noMatch, DetectOutcome.noMatch, DetectOutcome.noMatch] =
      (some 1, []) ∧
    0 ∉ (detect_platform_run [DetectOutcome.noMatch, DetectOutcome.matched,
      DetectOutcome.noMatch, DetectOutcome.noMatch, DetectOutcome.noMatch]).2 :=
  ⟨by decide, by decide⟩

/-- C5 amended: `detect_platform` never raises and always returns a handler —
the first one in the fixed priority order (Shopify, WooCommerce, Amazon,
eBay, Generic) whose `detect` returned True, or a fresh Generic handler when
none matched; a handler whose `detect` raised is closed and skipped; but a
handler whose `detect` returned False is skipped WITHOUT being closed. -/
theorem c5_detect_platform_amended (outs : List DetectOutcome) :
    detect_platform_run outs = (firstMatchedIdx outs, raisedPre outs) ∧
    (∀ j, outs[j]? = some DetectOutcome.noMatch →
      j ∉ (detect_platform_run outs).2) ∧
    (∀ j, j ∈ (detect_platform_run outs).2 →
      outs[j]? = some DetectOutcome.raised) := by
  have hrun : detect_platform_run outs = (firstMatchedIdx outs, raisedPre outs) := by
    rw [detect_platform_run, detect_platform_go_spec outs 0,
      optionMapAddZero, listMapAddZero]
  refine ⟨hrun, ?_, ?_⟩
  · intro j hj hmem
    rw [hrun] at hmem
    have := mem_raisedPre outs j hmem
    rw [hj] at this
    cases this
  · intro j hmem
    rw [hrun] at hmem
    exact mem_raisedPre outs j hmem

/-- Witness for C5 (amended): a concrete run where handler 0 raised and
handler 2 matched; handler 0 is closed, handler 1 (returned False) is not. -/
theorem c5_detect_platform_amended_witness :
    detect_platform_run [DetectOutcome.raised, DetectOutcome.noMatch,
      DetectOutcome.matched, DetectOutcome.noMatch, DetectOutcome.noMatch] =
      (firstMatchedIdx [DetectOutcome.raised, DetectOutcome.noMatch,
        DetectOutcome.matched, DetectOutcome.noMatch, DetectOutcome.noMatch],
       raisedPre [DetectOutcome.raised, DetectOutcome.noMatch,
        DetectOutcome.matched, DetectOutcome.noMatch, DetectOutcome.noMatch]) ∧
    1 ∉ (detect_platform_run [DetectOutcome.raised, DetectOutcome.noMatch,
      DetectOutcome.matched, DetectOutcome.noMatch, DetectOutcome.noMatch]).2 :=
  ⟨(c5_detect_platform_amended _).1,
   (c5_detect_platform_amended _).2.1 1 (by decide)⟩

/-- C8 counterexample: a `/products.json` product whose `variants` list is
present but empty does NOT yield a `DiscoveredProduct` with `in_stock = true`:
`_parse_product` drops it entirely (the sku read raises `IndexError`, caught
by the enclosing `except`, returning `None`). -/
theorem c8_in_stock_counterexample :
    shopify_parse_product
      { title := "Widget", handle := "widget", variants := some [] }
      "https://shop.example" = none ∧
    ¬ ∃ p : DiscoveredProduct,
        shopify_parse_product
          { title := "Widget", handle := "widget", variants := some [] }
          "https://shop.example" = some p ∧ p.in_stock = true := by
  constructor
  · rfl
  · rintro ⟨p, hp, -⟩
    exact Option.noConfusion hp

/-- C8 amended: the `DiscoveredProduct` dataclass does default `in_stock` to
true, but the Shopify `/products.json` parser always overrides it: a product
whose `variants` key is missing parses with `in_stock = false` (the parser's
initialisation, not the dataclass default); a product whose `variants` list
is present but empty is dropped (`None`); and a parsed product with variants
takes `in_stock` from the first variant's `available` field, defaulting to
false when that key is absent. -/
theorem c8_in_stock_amended :
    (({ name := "n", price := none, currency := "USD", image_url := none,
        product_url := "u", platform := "shopify" } : DiscoveredProduct).in_stock
      = true) ∧
    (∀ (rec : ShopifyRaw) (base : String), rec.variants = some [] →
      shopify_parse_product rec base = none) ∧
    (∀ (rec : ShopifyRaw) (base : String), rec.variants = none →
      ∃ p, shopify_parse_product rec base = some p ∧ p.in_stock = false) ∧
    (∀ (rec : ShopifyRaw) (base : String) (v : ShopifyVariant)
        (vs : List ShopifyVariant) (p : DiscoveredProduct),
      rec.variants = some (v :: vs) →
      shopify_parse_product rec base = some p →
      p.in_stock = v.available.getD false) := by
  refine ⟨rfl, ?_, ?_, ?_⟩
  · intro rec base h
    unfold shopify_parse_product
    rw [h]
  · intro rec base h
    unfold shopify_parse_product
    rw [h]
    exact ⟨_, rfl, rfl⟩
  · intro rec base v vs p hv hp
    unfold shopify_parse_product at hp
    rw [hv] at hp
    split at hp
    · next heq => exact Option.noConfusion heq
    · next heq => exact List.noConfusion (Option.some.inj heq)
    · next v2 vs2 heq =>
        obtain ⟨hv2, -⟩ := List.cons.inj (Option.some.inj heq)
        subst hv2
        split at hp
        · cases hp
          rfl
        · next s heqs =>
            split at hp
            · cases hp
              rfl
            · split at hp
              · cases hp
              · cases hp
                rfl

/-- Witness for C8 (amended): the three universal parts applied at concrete
records: empty variants list (dropped), missing variants key (in stock
false), and a variant with `available: true`. -/
theorem c8_in_stock_amended_witness :
    shopify_parse_product { variants := some [] } "https://s.example" = none ∧
    (∃ p, shopify_parse_product { variants := none } "https://s.example" =
        some p ∧ p.in_stock = false) ∧
    ({ name := "Widget", price := some ⟨false, 250, 2⟩, currency := "USD",
       image_url := none, product_url := "https://s.example/products/w",
       platform := "shopify", variant_id := some "v1", sku := none,
       in_stock := true, product_type := some "", tags := [],
       description := some "" } : DiscoveredProduct).in_stock =
      (some true : Option Bool).getD false :=
  ⟨c8_in_stock_amended.2.1 { variants := some [] } "https://s.example" rfl,
   c8_in_stock_amended.2.2.1 { variants := none } "https://s.example" rfl,
   c8_in_stock_amended.2.2.2
     { title := "Widget", handle := "w",
       variants := some [{ price := some "2.50", id := "v1",
                           available := some true, sku := none }] }
     "https://s.example"
     { price := some "2.50", id := "v1", available := some true, sku := none }
     [] _ rfl rfl⟩

theorem c6_parse (n : Nat) :
    shopify_parse_product (c6_record n) c6_base = some (c6_product n) := rfl

/-- One non-empty page advances the loop when the cap is not yet reached. -/
theorem shopify_fetch_json_go_step (base : String) (cap : Nat)
    (rest : List PageResp) (acc : List DiscoveredProduct)
    (recs : List ShopifyRaw) (hlt : acc.length < cap) (hne : recs ≠ []) :
    shopify_fetch_json_go base cap (PageResp.ok recs :: rest) acc =
      shopify_fetch_json_go base cap rest
        (acc ++ recs.filterMap (fun r => shopify_parse_product r base)) := by
  cases recs with
  | nil => exact absurd rfl hne
  | cons r rs =>
    show (if cap ≤ acc.length then acc
      else shopify_fetch_json_go base cap rest
        (acc ++ (r :: rs).filterMap (fun r => shopify_parse_product r base))) = _
    rw [if_neg (Nat.not_le.mpr hlt)]

/-- Parsing one generated page is a `map` (no record is dropped). -/
theorem c6_page_filterMap (a m : Nat) :
    ((List.range m).map (fun k => c6_record (k + a))).filterMap
      (fun r => shopify_parse_product r c6_base) =
      (List.range m).map (fun k => c6_product (k + a)) := by
  rw [List.filterMap_map]
  rw [show ((fun r => shopify_parse_product r c6_base) ∘ (fun k => c6_record (k + a)))
      = some ∘ (fun k => c6_product (k + a)) from by
    funext k
    exact c6_parse (k + a)]
  exact congrFun (List.filterMap_eq_map _) _

theorem c6_recs1_ne_nil : c6_recs1 ≠ [] := by
  simp [c6_recs1, List.range_eq_nil]

theorem c6_recs2_ne_nil : c6_recs2 ≠ [] := by
  simp [c6_recs2, List.range_eq_nil]

/-- With any cap of at least 290 the loop collects the whole 300-item
catalog: after page 1 the accumulator holds 250 < cap products, so page 2 is
still requested. -/
theorem c6_fetch_all (cap : Nat) (hcap : 290 ≤ cap) :
    shopify_fetch_via_products_json c6_base cap c6_pages = c6_all := by
  unfold shopify_fetch_via_products_json c6_pages
  rw [shopify_fetch_json_go_step _ _ _ _ _
    (by simpa using lt_of_lt_of_le (by norm_num : (0:Nat) < 290) hcap)
    c6_recs1_ne_nil]
  rw [List.nil_append, c6_recs1, c6_page_filterMap]
  rw [shopify_fetch_json_go_step _ _ _ _ _
    (by simp only [List.length_map, List.length_range]; omega)
    c6_recs2_ne_nil]
  rw [c6_recs2, c6_page_filterMap]
  show (List.range 250).map (fun k => c6_product (k + 1)) ++
      (List.range 50).map (fun k => c6_product (k + 251)) = c6_all
  simp only [c6_all, show (300 : Nat) = 250 + 50 from rfl, List.range_add,
    List.map_append, List.map_map]
  congr 1

/-- Keyword "p290" keeps exactly product 290 of the collected catalog. -/
theorem c6_filter_p290 :
    filter_by_keyword c6_all (some "p290") = [c6_product 290] := by
  simp only [filter_by_keyword]
  rw [if_neg (by decide), if_neg (by decide)]
  rw [c6_all, List.filter_map]
  rw [show (List.range 300).filter
      ((fun p => (List.map pyLower (pySplitWs "p290")).any
        fun w => pyIn w (searchableText p)) ∘ (fun k => c6_product (k + 1)))
      = [289] from by decide]
  rfl

/-- C6: with a 300-item catalog served in pages of 250 and any max-fetch cap
of at least 290, `fetch_products` aggregates both pages before filtering, so
the keyword "p290" (matching only item #290) still surfaces that item for any
positive limit. -/
theorem c6_shopify_fetch_aggregates_before_filter (cap limit : Nat)
    (hcap : 290 ≤ cap) (hlim : 1 ≤ limit) :
    shopify_fetch_via_products_json c6_base cap c6_pages = c6_all ∧
    c6_all.length = 300 ∧
    filter_by_keyword c6_all (some "p290") = [c6_product 290] ∧
    c6_product 290 ∈
      shopify_fetch_products ⟨c6_pages, []⟩ c6_base (some "p290") limit cap := by
  refine ⟨c6_fetch_all cap hcap, by simp [c6_all], c6_filter_p290, ?_⟩
  unfold shopify_fetch_products
  rw [c6_fetch_all cap hcap,
    if_neg (by simp [c6_all, List.range_eq_nil, List.isEmpty_iff]),
    c6_filter_p290,
    List.take_of_length_le (by simpa using hlim)]
  exact List.mem_singleton.mpr rfl

/-- Witness for C6: the default max-fetch cap (500) and the default limit
(50). -/
theorem c6_shopify_fetch_aggregates_before_filter_witness :
    shopify_fetch_via_products_json c6_base max_products_fetch_default c6_pages
      = c6_all ∧
    c6_all.length = 300 ∧
    filter_by_keyword c6_all (some "p290") = [c6_product 290] ∧
    c6_product 290 ∈
      shopify_fetch_products ⟨c6_pages, []⟩ c6_base (some "p290") 50
        max_products_fetch_default :=
  c6_shopify_fetch_aggregates_before_filter max_products_fetch_default 50
    (by decide) (by decide)

end PriceHawk
